import Mathlib

/-!
Verification development for the buffer-queue consumer core of
media/libstagefright/SurfaceMediaSource.cpp: a fixed-capacity slot table,
a FIFO ready queue, a blocking read protocol, and a handle-matching
return path.  The definitions below are a shallow embedding of the C++
member functions as pure functions on an explicit state record; machine
integers that the code stores in int / int64_t are modelled as Int, and
pointers to graphics buffers as Option GraphicBuffer.
-/

namespace SMS

/-- Modelled from the spec: fixed compile-time slot capacity
(NUM_BUFFER_SLOTS in the header, which is not under src/).  The claims
are relative to the capacity; the concrete value matches the platform
header. -/
def NUM_BUFFER_SLOTS : Nat := 32

/-- Modelled from the spec: minimum client buffer count, MIN_ASYNC(=3). -/
def MIN_ASYNC_BUFFER_SLOTS : Nat := 3

/-- Modelled from the spec: minimum buffer count in synchronous mode (2). -/
def MIN_SYNC_BUFFER_SLOTS : Nat := 2

/-- Modelled from the spec: sentinel for the current-slot marker when no
slot is current (INVALID_BUFFER_SLOT in the header). -/
def INVALID_BUFFER_SLOT : Int := -1

/-- Modelled from the spec: sentinel meaning no producer is connected
(NO_CONNECTED_API in the header). -/
def NO_CONNECTED_API : Int := 0

/-- Modelled from the spec: the closed set of producer api identifiers
(NATIVE_WINDOW_API_* in the platform headers). -/
def NATIVE_WINDOW_API_EGL : Int := 1

def NATIVE_WINDOW_API_CPU : Int := 2

def NATIVE_WINDOW_API_MEDIA : Int := 3

def NATIVE_WINDOW_API_CAMERA : Int := 4

/-- Modelled from the spec: the 4-byte record tag identifying a
gralloc-source metadata record (kMetadataBufferTypeGrallocSource in
MetadataBufferType.h, which is not under src/). -/
def kMetadataBufferTypeGrallocSource : Nat := 1

/-- Status codes returned by the member functions.  BAD_VALUE models the
Android status BAD_VALUE, which is numerically identical to -EINVAL (the
value connect and disconnect return literally); INVALID_OPERATION models
the illegal-state status; NO_INIT the not-initialized status. -/
inductive Status where
  | OK
  | BAD_VALUE
  | INVALID_OPERATION
  | NO_INIT
deriving DecidableEq, Repr, Inhabited

/-- Slot states of the slot state machine (BufferSlot::BufferState). -/
inductive BufferState where
  | FREE
  | DEQUEUED
  | QUEUED
deriving DecidableEq, Repr, Inhabited

/-- An opaque graphics buffer: only its native handle (buffer_handle_t,
a pointer compared byte-for-byte by the return path) is relevant to this
core; the handle bytes are modelled as a Nat. -/
structure GraphicBuffer where
  handle : Nat
deriving DecidableEq, Repr

/-- One slot of the slot table (struct BufferSlot): an owned buffer
reference (null modelled as none), a state, a timestamp and the
requested flag. -/
structure BufferSlot where
  mGraphicBuffer : Option GraphicBuffer
  mBufferState : BufferState
  mTimestamp : Int
  mRequestBufferCalled : Bool
deriving DecidableEq, Repr

instance : Inhabited BufferSlot := ⟨⟨none, BufferState.FREE, 0, false⟩⟩

/-- The metadata record handed to the encoder by read():
4 bytes holding the record tag, followed by the fixed-size
buffer_handle_t blob, plus the kKeyTime metadata read() sets.  Since
both fields have fixed byte widths, the byte string is determined by
(tag, handleBytes) and vice versa. -/
structure MetadataBuffer where
  tag : Nat
  handleBytes : Nat
  keyTime : Int
deriving DecidableEq, Repr

/-- The mutex-guarded state block of SurfaceMediaSource: slot table,
ready queue (mQueue, a Fifo of slot indices), counters, connection
identity and the stopped flag.  mSlots has length NUM_BUFFER_SLOTS. -/
structure State where
  mStopped : Bool
  mConnectedApi : Int
  mBufferCount : Int
  mClientBufferCount : Int
  mServerBufferCount : Int
  mSynchronousMode : Bool
  mSlots : List BufferSlot
  mQueue : List Nat
  mCurrentSlot : Int
  mCurrentBuf : Option GraphicBuffer
  mCurrentTimestamp : Int
  mNumFramesEncoded : Nat
  mDefaultWidth : Nat
  mDefaultHeight : Nat
  mFrameRate : Int
deriving DecidableEq, Repr

/-- SurfaceMediaSource::freeAllBuffersLocked: null every slot's buffer
reference and force its state to FREE (the loop runs over all
NUM_BUFFER_SLOTS slots, i.e. the whole table). -/
def freeAllBuffersLocked (slots : List BufferSlot) : List BufferSlot :=
  slots.map fun sl => { sl with mGraphicBuffer := none, mBufferState := BufferState.FREE }

/-- SurfaceMediaSource::setBufferCountServerLocked.  The Bool component
records whether mDequeueCondition.signal() was called. -/
def setBufferCountServerLocked (s : State) (bufferCount : Int) : Status × State × Bool :=
  if bufferCount > (NUM_BUFFER_SLOTS : Int) then (Status.BAD_VALUE, s, false)
  else if bufferCount = s.mBufferCount then (Status.OK, s, false)
  else if s.mClientBufferCount = 0 ∧ bufferCount ≥ s.mBufferCount then
    (Status.OK,
      { s with mBufferCount := bufferCount, mServerBufferCount := bufferCount }, true)
  else if bufferCount < 2 then (Status.BAD_VALUE, s, false)
  else (Status.OK, { s with mServerBufferCount := bufferCount }, false)

/-- SurfaceMediaSource::setBufferCountServer (takes the lock and calls
the locked variant). -/
def setBufferCountServer (s : State) (bufferCount : Int) : Status × State × Bool :=
  setBufferCountServerLocked s bufferCount

/-- SurfaceMediaSource::setBufferCount (client request). -/
def setBufferCount (s : State) (bufferCount : Int) : Status × State :=
  if bufferCount > (NUM_BUFFER_SLOTS : Int) then (Status.BAD_VALUE, s)
  else if (s.mSlots.take s.mBufferCount.toNat).any
      (fun sl => sl.mBufferState == BufferState.DEQUEUED) then
    (Status.INVALID_OPERATION, s)
  else if bufferCount = 0 then
    let minBufferSlots : Int :=
      if s.mSynchronousMode then (MIN_SYNC_BUFFER_SLOTS : Int) else (MIN_ASYNC_BUFFER_SLOTS : Int)
    let s1 := { s with mClientBufferCount := 0 }
    let bc := if s1.mServerBufferCount ≥ minBufferSlots then s1.mServerBufferCount else minBufferSlots
    let r := setBufferCountServerLocked s1 bc
    (r.1, r.2.1)
  else if bufferCount < (MIN_ASYNC_BUFFER_SLOTS : Int) then (Status.BAD_VALUE, s)
  else
    (Status.OK,
      { s with mBufferCount := bufferCount, mClientBufferCount := bufferCount,
               mCurrentSlot := INVALID_BUFFER_SLOT, mQueue := [],
               mSlots := freeAllBuffersLocked s.mSlots })

/-- Update the slot at the given index in place with f, leaving every
other slot untouched (the shape of a single mSlots[i].field = v write). -/
def modifySlot (f : BufferSlot → BufferSlot) : List BufferSlot → Nat → List BufferSlot
  | [], _ => []
  | sl :: rest, 0 => f sl :: rest
  | sl :: rest, n + 1 => sl :: modifySlot f rest n

/-- SurfaceMediaSource::requestBuffer: record the requested flag and
hand out the slot's buffer reference. -/
def requestBuffer (s : State) (slot : Int) : Status × State × Option GraphicBuffer :=
  if slot < 0 ∨ s.mBufferCount ≤ slot then (Status.BAD_VALUE, s, none)
  else
    let i := slot.toNat
    let sl := (s.mSlots.get? i).getD default
    (Status.OK,
      { s with mSlots := modifySlot (fun sl => { sl with mRequestBufferCalled := true }) s.mSlots i },
      sl.mGraphicBuffer)

/-- SurfaceMediaSource::setSynchronousMode. -/
def setSynchronousMode (s : State) (enabled : Bool) : Status × State :=
  if s.mStopped then (Status.NO_INIT, s)
  else if !enabled then (Status.INVALID_OPERATION, s)
  else if s.mSynchronousMode ≠ enabled then
    (Status.OK, { s with mSynchronousMode := enabled })
  else (Status.OK, s)

/-- The out-parameters connect fills on success. -/
structure ConnectOutput where
  outWidth : Nat
  outHeight : Nat
  outTransform : Nat
deriving DecidableEq, Repr

/-- SurfaceMediaSource::connect. -/
def connect (s : State) (api : Int) : Status × Option ConnectOutput × State :=
  if s.mStopped then (Status.NO_INIT, none, s)
  else if api = NATIVE_WINDOW_API_EGL ∨ api = NATIVE_WINDOW_API_CPU ∨
          api = NATIVE_WINDOW_API_MEDIA ∨ api = NATIVE_WINDOW_API_CAMERA then
    if s.mConnectedApi ≠ NO_CONNECTED_API then (Status.BAD_VALUE, none, s)
    else
      (Status.OK, some ⟨s.mDefaultWidth, s.mDefaultHeight, 0⟩,
        { s with mConnectedApi := api })
  else (Status.BAD_VALUE, none, s)

/-- SurfaceMediaSource::disconnect.  On success it clears the identity,
sets mStopped and signals both conditions (the signals carry no state). -/
def disconnect (s : State) (api : Int) : Status × State :=
  if s.mStopped then (Status.NO_INIT, s)
  else if api = NATIVE_WINDOW_API_EGL ∨ api = NATIVE_WINDOW_API_CPU ∨
          api = NATIVE_WINDOW_API_MEDIA ∨ api = NATIVE_WINDOW_API_CAMERA then
    if s.mConnectedApi = api then
      (Status.OK, { s with mConnectedApi := NO_CONNECTED_API, mStopped := true })
    else (Status.BAD_VALUE, s)
  else (Status.BAD_VALUE, s)

/-- SurfaceMediaSource::stop: set the stopped flag, signal both
conditions, clear the ready queue and free every slot.  Always OK. -/
def stop (s : State) : Status × State :=
  (Status.OK,
    { s with mStopped := true, mQueue := [],
             mSlots := freeAllBuffersLocked s.mSlots })

/-- SurfaceMediaSource::setFrameRate. -/
def setFrameRate (s : State) (fps : Int) : Status × State :=
  if fps < 0 ∨ fps > 60 then (Status.BAD_VALUE, s)
  else (Status.OK, { s with mFrameRate := fps })

/-- Outcome of a read() call in the sequential model: the end-of-stream
status, suspension on the frame-available condition (queue empty and not
stopped), a delivered metadata record, or the undefined behaviour of
dereferencing a null current buffer in passMetadataBufferLocked. -/
inductive ReadResult where
  | eos
  | blocked
  | frame (record : MetadataBuffer)
  | fault
deriving DecidableEq, Repr

/-- SurfaceMediaSource::passMetadataBufferLocked: build the record whose
data is the 4-byte gralloc-source tag followed by the bytes of
mCurrentBuf->handle.  The caller (read) then stamps kKeyTime with
mCurrentTimestamp / 1000. -/
def passMetadataBufferLocked (currentBuf : Option GraphicBuffer) (keyTime : Int) :
    Option MetadataBuffer :=
  currentBuf.map fun gb => ⟨kMetadataBufferTypeGrallocSource, gb.handle, keyTime⟩

/-- SurfaceMediaSource::read: wait while the queue is empty and the
session is not stopped; if stopped return end of stream; otherwise pop
the ready-queue head, update the current slot, buffer and timestamp,
bump the frames-encoded counter and emit the metadata record. -/
def read (s : State) : ReadResult × State :=
  if s.mStopped then (ReadResult.eos, s)
  else
    match s.mQueue with
    | [] => (ReadResult.blocked, s)
    | front :: rest =>
      let sl := (s.mSlots.get? front).getD default
      let s1 := { s with mCurrentSlot := (front : Int), mQueue := rest,
                         mCurrentBuf := sl.mGraphicBuffer,
                         mCurrentTimestamp := sl.mTimestamp,
                         mNumFramesEncoded := s.mNumFramesEncoded + 1 }
      match passMetadataBufferLocked s1.mCurrentBuf (s1.mCurrentTimestamp / 1000) with
      | some record => (ReadResult.frame record, s1)
      | none => (ReadResult.fault, s1)

/-- SurfaceMediaSource::checkBufferMatchesSlot: compare the handle bytes
stored after the 4-byte tag of the record with the slot's buffer handle.
The caller only invokes it on slots with a non-null buffer; a null
buffer is mapped to false here (the C++ would fault). -/
def checkBufferMatchesSlot (sl : BufferSlot) (buffer : MetadataBuffer) : Bool :=
  match sl.mGraphicBuffer with
  | some gb => gb.handle == buffer.handleBytes
  | none => false

/-- The scan loop of signalBufferReturned: skip null slots, stop at the
first index whose buffer handle matches the record. -/
def findMatchingSlotAux (buffer : MetadataBuffer) :
    List BufferSlot → Nat → Option Nat
  | [], _ => none
  | sl :: rest, i =>
    if sl.mGraphicBuffer.isSome ∧ checkBufferMatchesSlot sl buffer then some i
    else findMatchingSlotAux buffer rest (i + 1)

def findMatchingSlot (slots : List BufferSlot) (buffer : MetadataBuffer) : Option Nat :=
  findMatchingSlotAux buffer slots 0

/-- Set the state of the slot at the given index to FREE, leaving its
buffer reference, timestamp and requested flag alone (exactly what the
matching branch of signalBufferReturned mutates). -/
def setSlotFree (l : List BufferSlot) (i : Nat) : List BufferSlot :=
  modifySlot (fun sl => { sl with mBufferState := BufferState.FREE }) l i

/-- Outcome of signalBufferReturned: the early return when stopped, a
freed slot index (with mDequeueCondition and mFrameCompleteCondition
signalled), or the fatal CHECK_EQ(0, ...) abort on a bogus buffer. -/
inductive SignalResult where
  | noopStopped
  | freed (slot : Nat)
  | fatal
deriving DecidableEq, Repr

/-- SurfaceMediaSource::signalBufferReturned. -/
def signalBufferReturned (s : State) (buffer : MetadataBuffer) : SignalResult × State :=
  if s.mStopped then (SignalResult.noopStopped, s)
  else
    match findMatchingSlot s.mSlots buffer with
    | some i => (SignalResult.freed i, { s with mSlots := setSlotFree s.mSlots i })
    | none => (SignalResult.fatal, s)

/-- The public state-mutating operations of the component, used to
quantify over "any later operation". -/
inductive Op where
  | opConnect (api : Int)
  | opDisconnect (api : Int)
  | opStop
  | opRead
  | opSignalBufferReturned (buffer : MetadataBuffer)
  | opSetBufferCount (n : Int)
  | opSetBufferCountServer (n : Int)
  | opSetSynchronousMode (b : Bool)
  | opRequestBuffer (slot : Int)
  | opSetFrameRate (fps : Int)
deriving DecidableEq, Repr

/-- The state reached after running one public operation. -/
def step (s : State) : Op → State
  | Op.opConnect api => (connect s api).2.2
  | Op.opDisconnect api => (disconnect s api).2
  | Op.opStop => (stop s).2
  | Op.opRead => (read s).2
  | Op.opSignalBufferReturned b => (signalBufferReturned s b).2
  | Op.opSetBufferCount n => (setBufferCount s n).2
  | Op.opSetBufferCountServer n => (setBufferCountServer s n).2.1
  | Op.opSetSynchronousMode b => (setSynchronousMode s b).2
  | Op.opRequestBuffer slot => (requestBuffer s slot).2.1
  | Op.opSetFrameRate fps => (setFrameRate s fps).2

/-! Concrete fixture states used to evaluate the theorems on concrete
inputs. -/

/-- An empty slot. -/
def freeSlot : BufferSlot := ⟨none, BufferState.FREE, 0, false⟩

/-- A slot holding a queued buffer with the given handle and timestamp. -/
def queuedSlot (h : Nat) (ts : Int) : BufferSlot :=
  ⟨some ⟨h⟩, BufferState.QUEUED, ts, true⟩

/-- A quiescent session: nothing connected, nothing queued. -/
def baseState : State where
  mStopped := false
  mConnectedApi := NO_CONNECTED_API
  mBufferCount := 3
  mClientBufferCount := 0
  mServerBufferCount := 3
  mSynchronousMode := true
  mSlots := List.replicate NUM_BUFFER_SLOTS freeSlot
  mQueue := []
  mCurrentSlot := INVALID_BUFFER_SLOT
  mCurrentBuf := none
  mCurrentTimestamp := 0
  mNumFramesEncoded := 0
  mDefaultWidth := 320
  mDefaultHeight := 240
  mFrameRate := 30

/-- The quiescent session after it stopped. -/
def stateStopped : State := { baseState with mStopped := true }

/-- A connected session with one queued frame at slot 0 (handle 7,
timestamp 100). -/
def stateOneFrame : State :=
  { baseState with
      mConnectedApi := NATIVE_WINDOW_API_MEDIA,
      mQueue := [0],
      mSlots := queuedSlot 7 100 :: List.replicate (NUM_BUFFER_SLOTS - 1) freeSlot }

/-! Helper lemmas about the slot-table primitives. -/

theorem modifySlot_get_self (f : BufferSlot → BufferSlot) (l : List BufferSlot) (i : Nat) :
    (modifySlot f l i).get? i = (l.get? i).map f := by
  induction l generalizing i with
  | nil => cases i <;> rfl
  | cons hd tl ih =>
    cases i with
    | zero => rfl
    | succ n => simpa [modifySlot] using ih n

theorem modifySlot_get_other (f : BufferSlot → BufferSlot) (l : List BufferSlot)
    (i k : Nat) (h : k ≠ i) : (modifySlot f l i).get? k = l.get? k := by
  induction l generalizing i k with
  | nil => cases i <;> rfl
  | cons hd tl ih =>
    cases i with
    | zero =>
      cases k with
      | zero => exact absurd rfl h
      | succ k' => rfl
    | succ n =>
      cases k with
      | zero => rfl
      | succ k' =>
        simpa [modifySlot] using ih n k' (fun hh => h (by rw [hh]))

theorem freeAllBuffersLocked_idem (l : List BufferSlot) :
    freeAllBuffersLocked (freeAllBuffersLocked l) = freeAllBuffersLocked l := by
  induction l with
  | nil => rfl
  | cons hd tl ih => simp [freeAllBuffersLocked] at ih ⊢

theorem freeAllBuffersLocked_state (l : List BufferSlot) :
    ∀ sl ∈ freeAllBuffersLocked l,
      sl.mBufferState = BufferState.FREE ∧ sl.mGraphicBuffer = none := by
  intro sl hmem
  rcases List.mem_map.mp hmem with ⟨x, _, rfl⟩
  exact ⟨rfl, rfl⟩

theorem checkBufferMatchesSlot_isSome (sl : BufferSlot) (b : MetadataBuffer)
    (h : checkBufferMatchesSlot sl b = true) : sl.mGraphicBuffer.isSome = true := by
  cases hgb : sl.mGraphicBuffer with
  | none => rw [checkBufferMatchesSlot, hgb] at h; exact absurd h (by simp)
  | some gb => simp [hgb]

theorem findMatchingSlotAux_none (b : MetadataBuffer) (l : List BufferSlot)
    (h : ∀ sl ∈ l, checkBufferMatchesSlot sl b = false) :
    ∀ i, findMatchingSlotAux b l i = none := by
  induction l with
  | nil => intro i; rfl
  | cons hd tl ih =>
    intro i
    have hc : ¬(hd.mGraphicBuffer.isSome = true ∧ checkBufferMatchesSlot hd b = true) := by
      rintro ⟨-, h2⟩
      rw [h hd (List.mem_cons_self hd tl)] at h2
      exact Bool.false_ne_true h2
    rw [findMatchingSlotAux, if_neg hc]
    exact ih (fun sl hm => h sl (List.mem_cons_of_mem _ hm)) (i + 1)

theorem findMatchingSlotAux_first (b : MetadataBuffer) (l : List BufferSlot) :
    ∀ (i j : Nat) (sl : BufferSlot), l.get? j = some sl →
    checkBufferMatchesSlot sl b = true →
    (∀ k, k < j → ∀ sl', l.get? k = some sl' → checkBufferMatchesSlot sl' b = false) →
    findMatchingSlotAux b l i = some (i + j) := by
  induction l with
  | nil =>
    intro i j sl hget
    rw [List.get?_nil] at hget
    exact absurd hget (by simp)
  | cons hd tl ih =>
    intro i j sl hget hm hlow
    cases j with
    | zero =>
      rw [List.get?_cons_zero, Option.some_inj] at hget
      subst hget
      rw [findMatchingSlotAux,
        if_pos ⟨checkBufferMatchesSlot_isSome hd b hm, hm⟩]
      simp
    | succ j' =>
      have hhd : checkBufferMatchesSlot hd b = false :=
        hlow 0 (Nat.succ_pos _) hd rfl
      have hc : ¬(hd.mGraphicBuffer.isSome = true ∧ checkBufferMatchesSlot hd b = true) := by
        rintro ⟨-, h2⟩
        rw [hhd] at h2
        exact Bool.false_ne_true h2
      rw [findMatchingSlotAux, if_neg hc]
      have hrec := ih (i + 1) j' sl (by simpa using hget) hm
        (fun k hk sl' hg =>
          hlow (k + 1) (Nat.succ_lt_succ hk) sl' (by simpa using hg))
      rw [hrec]
      congr 1
      omega

theorem no_dequeued_take_any (l : List BufferSlot) (n : Nat)
    (h : ∀ sl ∈ l, sl.mBufferState ≠ BufferState.DEQUEUED) :
    (l.take n).any (fun sl => sl.mBufferState == BufferState.DEQUEUED) = false := by
  rw [← Bool.not_eq_true, List.any_eq_true]
  push_neg
  intro sl hmem
  have hne := h sl (List.take_subset n l hmem)
  simp [hne]

/-! The claims. -/

/-- C4: whenever the stopped flag is set, read() returns the
end-of-stream result and leaves the state — in particular the Ready
Queue — untouched, even when the queue is non-empty. -/
theorem C4_read_stopped_eos (s : State) (h : s.mStopped = true) :
    read s = (ReadResult.eos, s) := by
  rw [read, if_pos h]

theorem C4_read_stopped_eos_witness :
    ({ stateOneFrame with mStopped := true } : State).mStopped = true ∧
    ({ stateOneFrame with mStopped := true } : State).mQueue ≠ [] ∧
    read { stateOneFrame with mStopped := true } =
      (ReadResult.eos, { stateOneFrame with mStopped := true }) :=
  ⟨rfl, by decide,
    C4_read_stopped_eos { stateOneFrame with mStopped := true } rfl⟩

/-- C7 (counterexample): on a stopped session, setSynchronousMode(false)
returns NO_INIT, not the illegal-state result INVALID_OPERATION, so the
claim that it fails with the illegal-state result in every session state
is false. -/
theorem C7_counterexample :
    (setSynchronousMode stateStopped false).1 = Status.NO_INIT ∧
    Status.NO_INIT ≠ Status.INVALID_OPERATION := by
  constructor
  · rfl
  · decide

/-- C7 (amended): setSynchronousMode(false) never succeeds and never
mutates the state; it fails with NO_INIT when the session is stopped and
with the illegal-state result INVALID_OPERATION otherwise. -/
theorem C7_sync_mode_false (s : State) :
    (s.mStopped = true → setSynchronousMode s false = (Status.NO_INIT, s)) ∧
    (s.mStopped = false → setSynchronousMode s false = (Status.INVALID_OPERATION, s)) ∧
    (setSynchronousMode s false).1 ≠ Status.OK := by
  refine ⟨fun h => by rw [setSynchronousMode, if_pos h],
    fun h => ?_, ?_⟩
  · rw [setSynchronousMode, if_neg (by rw [h]; exact Bool.false_ne_true)]
    rfl
  · rw [setSynchronousMode]
    split
    · simp
    · simp

theorem C7_sync_mode_false_witness :
    setSynchronousMode stateStopped false = (Status.NO_INIT, stateStopped) ∧
    setSynchronousMode baseState false = (Status.INVALID_OPERATION, baseState) :=
  ⟨(C7_sync_mode_false stateStopped).1 rfl,
   (C7_sync_mode_false baseState).2.1 rfl⟩

/-- C5 (counterexample): on a stopped session, connect(EGL) returns
NO_INIT, not the invalid-argument result BAD_VALUE (-EINVAL), so the
claim that both failure cases yield an invalid-argument result is
false. -/
theorem C5_counterexample :
    (connect stateStopped NATIVE_WINDOW_API_EGL).1 = Status.NO_INIT ∧
    Status.NO_INIT ≠ Status.BAD_VALUE := by
  constructor
  · rfl
  · decide

/-- C5 (amended): for each api in the closed set {EGL, CPU, MEDIA,
CAMERA}, connect fails with NO_INIT when the session has stopped and
with the invalid-argument result BAD_VALUE (-EINVAL) when another
producer is already connected; in both failure cases no state is
mutated and no output is produced. -/
theorem C5_connect_failures (s : State) (api : Int)
    (hapi : api = NATIVE_WINDOW_API_EGL ∨ api = NATIVE_WINDOW_API_CPU ∨
            api = NATIVE_WINDOW_API_MEDIA ∨ api = NATIVE_WINDOW_API_CAMERA) :
    (s.mStopped = true → connect s api = (Status.NO_INIT, none, s)) ∧
    (s.mStopped = false → s.mConnectedApi ≠ NO_CONNECTED_API →
      connect s api = (Status.BAD_VALUE, none, s)) := by
  constructor
  · intro h
    rw [connect, if_pos h]
  · intro h hconn
    rw [connect, if_neg (by rw [h]; exact Bool.false_ne_true), if_pos hapi,
      if_pos hconn]

theorem C5_connect_failures_witness :
    connect stateStopped NATIVE_WINDOW_API_CAMERA = (Status.NO_INIT, none, stateStopped) ∧
    connect stateOneFrame NATIVE_WINDOW_API_EGL = (Status.BAD_VALUE, none, stateOneFrame) :=
  ⟨(C5_connect_failures stateStopped NATIVE_WINDOW_API_CAMERA
      (Or.inr (Or.inr (Or.inr rfl)))).1 rfl,
   (C5_connect_failures stateOneFrame NATIVE_WINDOW_API_EGL (Or.inl rfl)).2 rfl
     (by decide)⟩

/-- C3: when the record's handle bytes match no non-null slot's buffer
handle, signalBufferReturned on a non-stopped session ends in the fatal
contract-violation abort (CHECK_EQ), never a silent return; on a stopped
session it is a no-op. -/
theorem C3_bogus_buffer (s : State) (buffer : MetadataBuffer)
    (hnm : ∀ sl ∈ s.mSlots, checkBufferMatchesSlot sl buffer = false) :
    (s.mStopped = false → signalBufferReturned s buffer = (SignalResult.fatal, s)) ∧
    (s.mStopped = true → signalBufferReturned s buffer = (SignalResult.noopStopped, s)) := by
  constructor
  · intro h
    rw [signalBufferReturned, if_neg (by rw [h]; exact Bool.false_ne_true),
      findMatchingSlot, findMatchingSlotAux_none buffer s.mSlots hnm 0]
  · intro h
    rw [signalBufferReturned, if_pos h]

theorem get?_take_mem (l : List BufferSlot) (i k : Nat) (sl : BufferSlot)
    (hk : k < i) (h : l.get? k = some sl) : sl ∈ l.take i := by
  induction l generalizing i k with
  | nil => rw [List.get?_nil] at h; exact absurd h (by simp)
  | cons hd tl ih =>
    cases k with
    | zero =>
      rw [List.get?_cons_zero, Option.some_inj] at h
      cases i with
      | zero => omega
      | succ i' =>
        subst h
        exact List.mem_cons_self hd _
    | succ k' =>
      cases i with
      | zero => omega
      | succ i' =>
        rw [List.get?_cons_succ] at h
        exact List.mem_cons_of_mem _ (ih i' k' (Nat.lt_of_succ_lt_succ hk) h)

/-- C2: on a non-stopped session with slot 0 queued at the front of the
Ready Queue and holding a buffer, read() delivers a record made of the
4-byte gralloc-source tag followed by exactly that buffer's handle
bytes, and signalBufferReturned on that record frees slot 0. -/
theorem C2_roundtrip (s : State) (rest : List Nat) (sl0 : BufferSlot) (gb : GraphicBuffer)
    (hstop : s.mStopped = false) (hq : s.mQueue = 0 :: rest)
    (hs0 : s.mSlots.get? 0 = some sl0)
    (_hqd : sl0.mBufferState = BufferState.QUEUED)
    (hgb : sl0.mGraphicBuffer = some gb) :
    ∃ record s1,
      read s = (ReadResult.frame record, s1) ∧
      record.tag = kMetadataBufferTypeGrallocSource ∧
      record.handleBytes = gb.handle ∧
      (signalBufferReturned s1 record).1 = SignalResult.freed 0 ∧
      ((signalBufferReturned s1 record).2.mSlots.get? 0).map
        (fun sl => sl.mBufferState) = some BufferState.FREE := by
  obtain ⟨tl, hslots⟩ : ∃ tl, s.mSlots = sl0 :: tl := by
    cases hms : s.mSlots with
    | nil => rw [hms] at hs0; exact absurd hs0 (by simp)
    | cons hd tl =>
      rw [hms, List.get?_cons_zero, Option.some_inj] at hs0
      exact ⟨tl, by rw [hs0]⟩
  have hfind :
      findMatchingSlot s.mSlots
        ⟨kMetadataBufferTypeGrallocSource, gb.handle, sl0.mTimestamp / 1000⟩ = some 0 := by
    rw [hslots, findMatchingSlot, findMatchingSlotAux,
      if_pos ⟨by rw [hgb]; rfl, by rw [checkBufferMatchesSlot, hgb]; exact beq_self_eq_true _⟩]
  rw [hslots] at hfind
  refine ⟨⟨kMetadataBufferTypeGrallocSource, gb.handle, sl0.mTimestamp / 1000⟩,
    { s with mCurrentSlot := ((0 : Nat) : Int), mQueue := rest,
             mCurrentBuf := some gb, mCurrentTimestamp := sl0.mTimestamp,
             mNumFramesEncoded := s.mNumFramesEncoded + 1 },
    ?_, rfl, rfl, ?_, ?_⟩
  · simp [read, hstop, hq, hslots, hgb, passMetadataBufferLocked]
  · simp [signalBufferReturned, hstop, hslots, hfind]
  · simp [signalBufferReturned, hstop, hslots, hfind, setSlotFree, modifySlot]

theorem C2_roundtrip_witness :
    ∃ record s1,
      read stateOneFrame = (ReadResult.frame record, s1) ∧
      record.tag = kMetadataBufferTypeGrallocSource ∧
      record.handleBytes = (7 : Nat) ∧
      (signalBufferReturned s1 record).1 = SignalResult.freed 0 ∧
      ((signalBufferReturned s1 record).2.mSlots.get? 0).map
        (fun sl => sl.mBufferState) = some BufferState.FREE :=
  C2_roundtrip stateOneFrame [] (queuedSlot 7 100) ⟨7⟩ rfl rfl rfl rfl rfl

/-- C6 (counterexample): setBufferCount(1) on a session with no
DEQUEUED slot returns BAD_VALUE, not the illegal-state result
INVALID_OPERATION the claim names. -/
theorem C6_counterexample :
    (∀ sl ∈ baseState.mSlots, sl.mBufferState ≠ BufferState.DEQUEUED) ∧
    (setBufferCount baseState 1).1 = Status.BAD_VALUE ∧
    Status.BAD_VALUE ≠ Status.INVALID_OPERATION := by
  refine ⟨by decide, by decide, by decide⟩

/-- C6 (amended): with no slot DEQUEUED, setBufferCount(N) for N the
fixed capacity succeeds; setBufferCount(N+1) fails with BAD_VALUE (the
out-of-range rejection shares the bad-value status); and
setBufferCount(1) also fails with BAD_VALUE (below the minimum of 3),
not with the illegal-state result. -/
theorem C6_boundaries (s : State)
    (hnd : ∀ sl ∈ s.mSlots, sl.mBufferState ≠ BufferState.DEQUEUED) :
    (setBufferCount s (NUM_BUFFER_SLOTS : Int)).1 = Status.OK ∧
    (setBufferCount s ((NUM_BUFFER_SLOTS : Int) + 1)).1 = Status.BAD_VALUE ∧
    (setBufferCount s 1).1 = Status.BAD_VALUE := by
  have hany := no_dequeued_take_any s.mSlots s.mBufferCount.toNat hnd
  refine ⟨?_, ?_, ?_⟩
  · rw [setBufferCount, if_neg (by omega),
      if_neg (by rw [hany]; exact Bool.false_ne_true),
      if_neg (by norm_num [NUM_BUFFER_SLOTS]),
      if_neg (by norm_num [NUM_BUFFER_SLOTS, MIN_ASYNC_BUFFER_SLOTS])]
  · rw [setBufferCount, if_pos (by norm_num [NUM_BUFFER_SLOTS])]
  · rw [setBufferCount, if_neg (by norm_num [NUM_BUFFER_SLOTS]),
      if_neg (by rw [hany]; exact Bool.false_ne_true),
      if_neg (by norm_num),
      if_pos (by norm_num [MIN_ASYNC_BUFFER_SLOTS])]

theorem C6_boundaries_witness :
    (setBufferCount baseState (NUM_BUFFER_SLOTS : Int)).1 = Status.OK ∧
    (setBufferCount baseState ((NUM_BUFFER_SLOTS : Int) + 1)).1 = Status.BAD_VALUE ∧
    (setBufferCount baseState 1).1 = Status.BAD_VALUE :=
  C6_boundaries baseState (by decide)

/-- A session whose buffer count (5) differs from its server buffer
count (3), with no client override. -/
def stateFiveCount : State := { baseState with mBufferCount := 5 }

/-- C8 (counterexample): with no client override, k (= 5) equal to the
current buffer count and a stale server count (3), the claim says
setBufferCountServer(5) sets the server buffer count to 5 and signals
the dequeue condition; the code hits the nothing-to-do special case and
does neither. -/
theorem C8_counterexample :
    stateFiveCount.mClientBufferCount = 0 ∧
    stateFiveCount.mBufferCount ≤ (5 : Int) ∧
    (setBufferCountServer stateFiveCount 5).2.1.mServerBufferCount = 3 ∧
    (setBufferCountServer stateFiveCount 5).2.2 = false ∧
    (3 : Int) ≠ 5 := by
  refine ⟨by decide, by decide, by decide, by decide, by decide⟩

/-- C8 (amended): for k within capacity and different from the current
buffer count, setBufferCountServer(k) applies immediately (setting both
counts and signalling the dequeue condition) when no client override is
active and k is at least the current count; otherwise it defers,
recording k as the server count when k is at least 2 and failing with
BAD_VALUE when k is below 2.  When k equals the current buffer count the
call is a no-op returning OK, signalling nothing and leaving the server
count unchanged. -/
theorem C8_server_count (s : State) (k : Int)
    (hk : k ≤ (NUM_BUFFER_SLOTS : Int)) (hne : k ≠ s.mBufferCount) :
    (s.mClientBufferCount = 0 → s.mBufferCount ≤ k →
      setBufferCountServer s k =
        (Status.OK, { s with mBufferCount := k, mServerBufferCount := k }, true)) ∧
    ((s.mClientBufferCount ≠ 0 ∨ k < s.mBufferCount) →
      ((2 : Int) ≤ k →
        setBufferCountServer s k = (Status.OK, { s with mServerBufferCount := k }, false)) ∧
      (k < 2 → setBufferCountServer s k = (Status.BAD_VALUE, s, false))) := by
  constructor
  · intro hc hbc
    rw [setBufferCountServer, setBufferCountServerLocked,
      if_neg (not_lt.mpr hk), if_neg hne, if_pos ⟨hc, hbc⟩]
  · intro hor
    have hno : ¬(s.mClientBufferCount = 0 ∧ k ≥ s.mBufferCount) := by
      rcases hor with h | h
      · exact fun hh => h hh.1
      · exact fun hh => absurd hh.2 (not_le.mpr h)
    constructor
    · intro h2
      rw [setBufferCountServer, setBufferCountServerLocked,
        if_neg (not_lt.mpr hk), if_neg hne, if_neg hno, if_neg (not_lt.mpr h2)]
    · intro h2
      rw [setBufferCountServer, setBufferCountServerLocked,
        if_neg (not_lt.mpr hk), if_neg hne, if_neg hno, if_pos h2]

theorem C8_server_count_witness :
    setBufferCountServer baseState 5 =
      (Status.OK, { baseState with mBufferCount := 5, mServerBufferCount := 5 }, true) ∧
    setBufferCountServer baseState 1 = (Status.BAD_VALUE, baseState, false) :=
  ⟨(C8_server_count baseState 5 (by decide) (by decide)).1 rfl (by decide),
   ((C8_server_count baseState 1 (by decide) (by decide)).2
      (Or.inr (by decide))).2 (by decide)⟩

/-- C9: signalBufferReturned on a non-stopped session frees at most one
slot: the scan stops at the lowest-index non-null slot whose handle
matches the record, that slot alone goes to FREE, and every other slot
(including any higher-index slot holding a buffer with the same handle
bytes) is unchanged. -/
theorem C9_first_match_only (s : State) (buffer : MetadataBuffer) (i : Nat)
    (sli : BufferSlot)
    (hstop : s.mStopped = false)
    (hget : s.mSlots.get? i = some sli)
    (hm : checkBufferMatchesSlot sli buffer = true)
    (hlow : (s.mSlots.take i).all
      (fun sl => !(checkBufferMatchesSlot sl buffer)) = true) :
    (signalBufferReturned s buffer).1 = SignalResult.freed i ∧
    (signalBufferReturned s buffer).2.mSlots.get? i =
      some { sli with mBufferState := BufferState.FREE } ∧
    ∀ k, k ≠ i → (signalBufferReturned s buffer).2.mSlots.get? k = s.mSlots.get? k := by
  have hlow' : ∀ k, k < i → ∀ sl', s.mSlots.get? k = some sl' →
      checkBufferMatchesSlot sl' buffer = false := by
    intro k hk sl' hg
    have hmem := get?_take_mem s.mSlots i k sl' hk hg
    have := List.all_eq_true.mp hlow sl' hmem
    simpa using this
  have hfind : findMatchingSlot s.mSlots buffer = some i := by
    have h0 := findMatchingSlotAux_first buffer s.mSlots 0 i sli hget hm hlow'
    simpa [findMatchingSlot] using h0
  have hss : (signalBufferReturned s buffer).2.mSlots = setSlotFree s.mSlots i := by
    simp [signalBufferReturned, hstop, hfind]
  refine ⟨by simp [signalBufferReturned, hstop, hfind], ?_, ?_⟩
  · rw [hss, setSlotFree, modifySlot_get_self, hget]
    rfl
  · intro k hki
    rw [hss, setSlotFree, modifySlot_get_other _ _ _ _ hki]

/-- Two distinct slots (1 and 2) holding buffers with identical handle
bytes (7). -/
def stateDupHandles : State :=
  { baseState with
      mQueue := [1, 2],
      mSlots := freeSlot :: queuedSlot 7 100 :: queuedSlot 7 200 ::
        List.replicate (NUM_BUFFER_SLOTS - 3) freeSlot }

theorem C9_first_match_only_witness :
    (signalBufferReturned stateDupHandles ⟨kMetadataBufferTypeGrallocSource, 7, 0⟩).1 =
      SignalResult.freed 1 ∧
    (signalBufferReturned stateDupHandles
        ⟨kMetadataBufferTypeGrallocSource, 7, 0⟩).2.mSlots.get? 1 =
      some { queuedSlot 7 100 with mBufferState := BufferState.FREE } ∧
    (signalBufferReturned stateDupHandles
        ⟨kMetadataBufferTypeGrallocSource, 7, 0⟩).2.mSlots.get? 2 =
      stateDupHandles.mSlots.get? 2 := by
  have h := C9_first_match_only stateDupHandles ⟨kMetadataBufferTypeGrallocSource, 7, 0⟩
    1 (queuedSlot 7 100) rfl rfl (by decide) (by decide)
  exact ⟨h.1, h.2.1, h.2.2 2 (by decide)⟩

theorem C3_bogus_buffer_witness :
    signalBufferReturned stateOneFrame ⟨kMetadataBufferTypeGrallocSource, 9, 0⟩ =
      (SignalResult.fatal, stateOneFrame) ∧
    signalBufferReturned { stateOneFrame with mStopped := true }
        ⟨kMetadataBufferTypeGrallocSource, 9, 0⟩ =
      (SignalResult.noopStopped, { stateOneFrame with mStopped := true }) :=
  ⟨(C3_bogus_buffer stateOneFrame ⟨kMetadataBufferTypeGrallocSource, 9, 0⟩
      (by decide)).1 rfl,
   (C3_bogus_buffer { stateOneFrame with mStopped := true }
      ⟨kMetadataBufferTypeGrallocSource, 9, 0⟩ (by decide)).2 rfl⟩

/-! Slot-table effects of each public operation. -/

theorem connect_slots (s : State) (api : Int) :
    (connect s api).2.2.mSlots = s.mSlots := by
  rw [connect]; split_ifs <;> rfl

theorem disconnect_slots (s : State) (api : Int) :
    (disconnect s api).2.mSlots = s.mSlots := by
  rw [disconnect]; split_ifs <;> rfl

theorem disconnect_queue (s : State) (api : Int) :
    (disconnect s api).2.mQueue = s.mQueue := by
  rw [disconnect]; split_ifs <;> rfl

theorem setSynchronousMode_slots (s : State) (b : Bool) :
    (setSynchronousMode s b).2.mSlots = s.mSlots := by
  rw [setSynchronousMode]; split_ifs <;> rfl

theorem setFrameRate_slots (s : State) (fps : Int) :
    (setFrameRate s fps).2.mSlots = s.mSlots := by
  rw [setFrameRate]; split_ifs <;> rfl

theorem setBufferCountServerLocked_slots (s : State) (n : Int) :
    (setBufferCountServerLocked s n).2.1.mSlots = s.mSlots := by
  rw [setBufferCountServerLocked]; split_ifs <;> rfl

theorem read_slots (s : State) : (read s).2.mSlots = s.mSlots := by
  rw [read]
  split
  · rfl
  · split
    · rfl
    · dsimp only
      split <;> rfl

theorem signalBufferReturned_slots (s : State) (b : MetadataBuffer) :
    (signalBufferReturned s b).2.mSlots = s.mSlots ∨
    ∃ i, (signalBufferReturned s b).2.mSlots = setSlotFree s.mSlots i := by
  rw [signalBufferReturned]
  split_ifs with h
  · exact Or.inl rfl
  · cases hf : findMatchingSlot s.mSlots b with
    | none => exact Or.inl rfl
    | some i => exact Or.inr ⟨i, rfl⟩

theorem setBufferCount_slots (s : State) (n : Int) :
    (setBufferCount s n).2.mSlots = s.mSlots ∨
    (setBufferCount s n).2.mSlots = freeAllBuffersLocked s.mSlots := by
  rw [setBufferCount]
  split_ifs
  · exact Or.inl rfl
  · exact Or.inl rfl
  · exact Or.inl (setBufferCountServerLocked_slots _ _)
  · exact Or.inl (setBufferCountServerLocked_slots _ _)
  · exact Or.inl rfl
  · exact Or.inr rfl

theorem requestBuffer_slots (s : State) (slot : Int) :
    (requestBuffer s slot).2.1.mSlots = s.mSlots ∨
    ∃ i, (requestBuffer s slot).2.1.mSlots =
      modifySlot (fun sl => { sl with mRequestBufferCalled := true }) s.mSlots i := by
  rw [requestBuffer]
  split_ifs with h
  · exact Or.inl rfl
  · exact Or.inr ⟨slot.toNat, rfl⟩

theorem freeAll_get_state (l : List BufferSlot) (i : Nat) (sl' : BufferSlot)
    (h : (freeAllBuffersLocked l).get? i = some sl') :
    sl'.mBufferState = BufferState.FREE :=
  (freeAllBuffersLocked_state l sl' (List.get?_mem h)).1

theorem modifySlot_get_cases (f : BufferSlot → BufferSlot) (l : List BufferSlot)
    (i k : Nat) (sl' : BufferSlot)
    (h : (modifySlot f l i).get? k = some sl') :
    l.get? k = some sl' ∨ ∃ sl, l.get? k = some sl ∧ sl' = f sl := by
  by_cases hk : k = i
  · subst hk
    rw [modifySlot_get_self] at h
    cases hg : l.get? k with
    | none => rw [hg] at h; exact absurd h (by simp)
    | some sl =>
      rw [hg, Option.map_some'] at h
      exact Or.inr ⟨sl, rfl, (Option.some_inj.mp h).symm⟩
  · rw [modifySlot_get_other _ _ _ _ hk] at h
    exact Or.inl h

/-- C10: stop() is idempotent and total in its reporting: it returns OK
from every state (also when already stopped by a prior stop or
disconnect), running it twice gives the same state as once (stopped set,
Ready Queue empty, all slots FREE with null buffer references), and —
unlike stop — disconnect on the stopped result reports the NO_INIT
failure. -/
theorem C10_stop_idempotent (s : State) :
    (stop s).1 = Status.OK ∧
    stop (stop s).2 = stop s ∧
    (stop s).2.mStopped = true ∧
    (stop s).2.mQueue = [] ∧
    (∀ sl ∈ (stop s).2.mSlots,
      sl.mBufferState = BufferState.FREE ∧ sl.mGraphicBuffer = none) ∧
    (∀ api, disconnect (stop s).2 api = (Status.NO_INIT, (stop s).2)) := by
  refine ⟨rfl, ?_, rfl, rfl, ?_, ?_⟩
  · simp [stop, freeAllBuffersLocked_idem]
  · exact freeAllBuffersLocked_state s.mSlots
  · intro api
    simp [disconnect, stop]

theorem C10_stop_idempotent_witness :
    (stop stateOneFrame).1 = Status.OK ∧
    stop (stop stateOneFrame).2 = stop stateOneFrame ∧
    (freeSlot.mBufferState = BufferState.FREE ∧ freeSlot.mGraphicBuffer = none) ∧
    disconnect (stop stateOneFrame).2 NATIVE_WINDOW_API_MEDIA =
      (Status.NO_INIT, (stop stateOneFrame).2) :=
  ⟨(C10_stop_idempotent stateOneFrame).1,
   (C10_stop_idempotent stateOneFrame).2.1,
   (C10_stop_idempotent stateOneFrame).2.2.2.2.1 freeSlot (by decide),
   (C10_stop_idempotent stateOneFrame).2.2.2.2.2 NATIVE_WINDOW_API_MEDIA⟩

/-- C1 (counterexample): disconnect with the connected api sets the
stopped flag yet leaves the Ready Queue non-empty and slot 0 in state
QUEUED, so the claim that every stop-setting operation leaves the queue
empty and all slots FREE is false. -/
theorem C1_counterexample :
    (disconnect stateOneFrame NATIVE_WINDOW_API_MEDIA).1 = Status.OK ∧
    (disconnect stateOneFrame NATIVE_WINDOW_API_MEDIA).2.mStopped = true ∧
    (disconnect stateOneFrame NATIVE_WINDOW_API_MEDIA).2.mQueue = [0] ∧
    ((disconnect stateOneFrame NATIVE_WINDOW_API_MEDIA).2.mSlots.get? 0).map
      (fun sl => sl.mBufferState) = some BufferState.QUEUED := by
  refine ⟨by decide, by decide, by decide, by decide⟩

/-- C1 (amended): stop() empties the Ready Queue and forces every slot
to FREE; disconnect (with any api) never changes the Ready Queue or the
slot table — it only sets the stopped flag on success; and no operation
of the component ever moves a slot into QUEUED or DEQUEUED (hence in
particular none does once the stopped flag is set): a slot found in one
of those states after an operation was already in that same state
before it. -/
theorem C1_stopped_terminal (s : State) :
    ((stop s).2.mQueue = [] ∧
      ∀ sl ∈ (stop s).2.mSlots, sl.mBufferState = BufferState.FREE) ∧
    (∀ api, s.mStopped = false →
      (disconnect s api).2.mQueue = s.mQueue ∧
      (disconnect s api).2.mSlots = s.mSlots) ∧
    (∀ (op : Op) (i : Nat) (sl' : BufferSlot),
      (step s op).mSlots.get? i = some sl' →
      sl'.mBufferState = BufferState.QUEUED ∨ sl'.mBufferState = BufferState.DEQUEUED →
      ∃ sl, s.mSlots.get? i = some sl ∧ sl.mBufferState = sl'.mBufferState) := by
  refine ⟨⟨rfl, fun sl hm => (freeAllBuffersLocked_state s.mSlots sl hm).1⟩, ?_, ?_⟩
  · intro api _
    exact ⟨disconnect_queue s api, disconnect_slots s api⟩
  · intro op i sl' hget hqd
    cases op with
    | opConnect api =>
      simp only [step] at hget
      rw [connect_slots] at hget
      exact ⟨sl', hget, rfl⟩
    | opDisconnect api =>
      simp only [step] at hget
      rw [disconnect_slots] at hget
      exact ⟨sl', hget, rfl⟩
    | opStop =>
      simp only [step, stop] at hget
      have hfree := freeAll_get_state s.mSlots i sl' hget
      rcases hqd with h | h <;> rw [hfree] at h <;> exact absurd h (by decide)
    | opRead =>
      simp only [step] at hget
      rw [read_slots] at hget
      exact ⟨sl', hget, rfl⟩
    | opSignalBufferReturned b =>
      simp only [step] at hget
      rcases signalBufferReturned_slots s b with h | ⟨i0, h⟩
      · rw [h] at hget
        exact ⟨sl', hget, rfl⟩
      · rw [h, setSlotFree] at hget
        rcases modifySlot_get_cases _ s.mSlots i0 i sl' hget with h2 | ⟨sl, hg, rfl⟩
        · exact ⟨sl', h2, rfl⟩
        · rcases hqd with hq | hq <;> simp at hq
    | opSetBufferCount n =>
      simp only [step] at hget
      rcases setBufferCount_slots s n with h | h
      · rw [h] at hget
        exact ⟨sl', hget, rfl⟩
      · rw [h] at hget
        have hfree := freeAll_get_state s.mSlots i sl' hget
        rcases hqd with hq | hq <;> rw [hfree] at hq <;> exact absurd hq (by decide)
    | opSetBufferCountServer n =>
      simp only [step, setBufferCountServer] at hget
      rw [setBufferCountServerLocked_slots] at hget
      exact ⟨sl', hget, rfl⟩
    | opSetSynchronousMode b =>
      simp only [step] at hget
      rw [setSynchronousMode_slots] at hget
      exact ⟨sl', hget, rfl⟩
    | opRequestBuffer slot =>
      simp only [step] at hget
      rcases requestBuffer_slots s slot with h | ⟨i0, h⟩
      · rw [h] at hget
        exact ⟨sl', hget, rfl⟩
      · rw [h] at hget
        rcases modifySlot_get_cases _ s.mSlots i0 i sl' hget with h2 | ⟨sl, hg, rfl⟩
        · exact ⟨sl', h2, rfl⟩
        · exact ⟨sl, hg, rfl⟩
    | opSetFrameRate fps =>
      simp only [step] at hget
      rw [setFrameRate_slots] at hget
      exact ⟨sl', hget, rfl⟩

theorem C1_stopped_terminal_witness :
    (stop stateOneFrame).2.mQueue = [] ∧
    (disconnect stateOneFrame NATIVE_WINDOW_API_MEDIA).2.mQueue = stateOneFrame.mQueue ∧
    (∃ sl, stateOneFrame.mSlots.get? 0 = some sl ∧
      sl.mBufferState = (queuedSlot 7 100).mBufferState) :=
  ⟨(C1_stopped_terminal stateOneFrame).1.1,
   ((C1_stopped_terminal stateOneFrame).2.1 NATIVE_WINDOW_API_MEDIA rfl).1,
   (C1_stopped_terminal stateOneFrame).2.2 Op.opRead 0 (queuedSlot 7 100)
     (by decide) (Or.inl rfl)⟩

end SMS
